import Mathlib

/-!
Shallow embedding of the CSI ring buffer and capture controller from
`src/modwifi_csi.c` / `src/modwifi_csi.h` (esp32-microcsi).

Machine integers (`uint32_t`) are modelled as `Nat` with explicit
reduction modulo `U32 = 2^32` at every operation where the C performs
32-bit arithmetic.  The C `frames` pointer is modelled as
`Option (List csi_frame_t)` (`none` = `NULL`); `malloc` success is an
explicit oracle argument.  The external ESP-IDF driver calls are
modelled by an oracle record of their return codes, and each controller
operation additionally returns the list of driver calls it performed,
in order, so that statements about "which driver calls happen" can be
made.
-/

/-- Modulus of `uint32_t` arithmetic: 2^32. -/
def U32 : Nat := 4294967296

/-- Return code type `esp_err_t`, as natural numbers. -/
abbrev EspErr := Nat

/-- Code `ESP_OK` (0). -/
def ESP_OK : EspErr := 0

/-- Code `ESP_ERR_NO_MEM` (0x101). -/
def ESP_ERR_NO_MEM : EspErr := 257

/-- Structure `csi_frame_t` from `modwifi_csi.h`: one fixed-shape capture record.
All fields are value-copied whole by `memcpy` in the C, so frame
equality in the model is structural equality. -/
structure csi_frame_t where
  rssi : Int
  rate : Nat
  mac : List Nat
  timestamp_us : Nat
  data : List Int
  len : Nat
  sig_mode : Nat
  mcs : Nat
  cwb : Nat
  smoothing : Nat
  not_sounding : Nat
  aggregation : Nat
  stbc : Nat
  fec_coding : Nat
  sgi : Nat
  noise_floor : Int
  ampdu_cnt : Nat
  channel : Nat
  secondary_channel : Nat
  local_timestamp : Nat
  ant : Nat
  sig_len : Nat
  rx_state : Nat
deriving DecidableEq, Inhabited, Repr

/-- Structure `csi_buffer_t` from `modwifi_csi.h`.  `frames = none` models a
`NULL` pointer; `some l` models an allocated array holding `l`. -/
structure csi_buffer_t where
  frames : Option (List csi_frame_t)
  head : Nat
  tail : Nat
  size : Nat
  dropped : Nat
  initialized : Bool
deriving DecidableEq, Repr

/-- Structure `csi_config_t` from `modwifi_csi.h`. -/
structure csi_config_t where
  lltf_en : Bool
  htltf_en : Bool
  stbc_htltf2_en : Bool
  ltf_merge_en : Bool
  channel_filter_en : Bool
  manu_scale : Bool
  shift : Nat
  buffer_size : Nat
deriving DecidableEq, Repr

/-- Structure `csi_state_t` from `modwifi_csi.h`: the controller's global state. -/
structure csi_state_t where
  buffer : csi_buffer_t
  config : csi_config_t
  enabled : Bool
deriving DecidableEq, Repr

/-- Function `csi_buffer_init` from `modwifi_csi.c`.  If already initialized the
old storage is freed (the C does not clear `initialized` before the
fresh `malloc`).  `allocOk` is the `malloc` success oracle: on failure
the C assigns `buf->frames = NULL` and returns `false`, touching no
other field; on success every field is reset. -/
def csi_buffer_init (buf : csi_buffer_t) (size : Nat) (allocOk : Bool) :
    csi_buffer_t × Bool :=
  if allocOk then
    ({ frames := some (List.replicate size default), head := 0, tail := 0,
       size := size, dropped := 0, initialized := true }, true)
  else
    ({ buf with frames := none }, false)

/-- Function `csi_buffer_deinit` from `modwifi_csi.c`. -/
def csi_buffer_deinit (buf : csi_buffer_t) : csi_buffer_t :=
  if buf.initialized && buf.frames.isSome then
    { buf with frames := none, initialized := false }
  else buf

/-- Function `csi_buffer_is_empty` from `modwifi_csi.c`. -/
def csi_buffer_is_empty (buf : csi_buffer_t) : Bool :=
  buf.head == buf.tail

/-- Function `csi_buffer_write` from `modwifi_csi.c`.  `(head + 1) % size` is
`uint32_t` arithmetic, hence the inner `% U32`; `dropped++` likewise
wraps modulo `U32`. -/
def csi_buffer_write (buf : csi_buffer_t) (frame : csi_frame_t) :
    csi_buffer_t × Bool :=
  if !buf.initialized then (buf, false)
  else
    let next_head := ((buf.head + 1) % U32) % buf.size
    if next_head = buf.tail then
      ({ buf with dropped := (buf.dropped + 1) % U32 }, false)
    else
      ({ buf with frames := buf.frames.map (fun fs => fs.set buf.head frame),
                  head := next_head }, true)

/-- Function `csi_buffer_read` from `modwifi_csi.c`.  Returns the updated buffer
and `some frame` on success, `none` when uninitialized or empty. -/
def csi_buffer_read (buf : csi_buffer_t) : csi_buffer_t × Option csi_frame_t :=
  if !buf.initialized || csi_buffer_is_empty buf then (buf, none)
  else
    ({ buf with tail := ((buf.tail + 1) % U32) % buf.size },
     (buf.frames.getD [])[buf.tail]?)

/-- The available-count computation of `wifi_csi_available_obj` in
`modwifi_csi.c`, at the buffer level. -/
def csi_available (buf : csi_buffer_t) : Nat :=
  if !buf.initialized then 0
  else if buf.head ≥ buf.tail then buf.head - buf.tail
  else buf.size - buf.tail + buf.head

/-- Binding `wifi.csi.available()` (`wifi_csi_available_obj` in `modwifi_csi.c`). -/
def wifi_csi_available (s : csi_state_t) : Nat :=
  csi_available s.buffer

/-- The driver calls `wifi_csi_enable` / `wifi_csi_disable` can issue,
recorded so theorems can speak about which calls were performed. -/
inductive DriverCall where
  | setProtocol : DriverCall
  | setBandwidth : DriverCall
  | setPromiscuous : Bool → DriverCall
  | setCsiConfig : csi_config_t → DriverCall
  | setCsiRxCb : DriverCall
  | setCsi : Bool → DriverCall
deriving DecidableEq, Repr

/-- Oracle for the return codes of the ESP-IDF driver calls and for
`malloc` success inside `csi_buffer_init`. -/
structure Driver where
  set_protocol : EspErr
  set_bandwidth : EspErr
  set_promiscuous : EspErr
  set_csi_config : EspErr
  set_csi_rx_cb : EspErr
  set_csi_on : EspErr
  set_csi_off : EspErr
  alloc_ok : Bool
deriving DecidableEq, Repr

/-- Function `wifi_csi_enable` from `modwifi_csi.c`.  Returns the new state, the
`esp_err_t` result, and the trace of driver calls performed.
`esp_wifi_set_protocol` and `esp_wifi_set_bandwidth` failures are only
logged (never propagated); `esp_wifi_set_promiscuous`,
`esp_wifi_set_csi_config`, `esp_wifi_set_csi_rx_cb` and
`esp_wifi_set_csi(true)` failures are returned verbatim before
`enabled` is set. -/
def wifi_csi_enable (d : Driver) (s : csi_state_t) :
    csi_state_t × EspErr × List DriverCall :=
  if s.enabled then (s, ESP_OK, [])
  else
    let p := if s.buffer.initialized then (s, true)
      else
        let r := csi_buffer_init s.buffer s.config.buffer_size d.alloc_ok
        ({ s with buffer := r.1 }, r.2)
    let s₁ := p.1
    if !p.2 then (s₁, ESP_ERR_NO_MEM, [])
    else
      let tr₀ := [DriverCall.setProtocol, DriverCall.setBandwidth,
                  DriverCall.setPromiscuous false]
      if d.set_promiscuous ≠ ESP_OK then (s₁, d.set_promiscuous, tr₀)
      else
        let tr₁ := tr₀ ++ [DriverCall.setCsiConfig s₁.config]
        if d.set_csi_config ≠ ESP_OK then (s₁, d.set_csi_config, tr₁)
        else
          let tr₂ := tr₁ ++ [DriverCall.setCsiRxCb]
          if d.set_csi_rx_cb ≠ ESP_OK then (s₁, d.set_csi_rx_cb, tr₂)
          else
            let tr₃ := tr₂ ++ [DriverCall.setCsi true]
            if d.set_csi_on ≠ ESP_OK then (s₁, d.set_csi_on, tr₃)
            else ({ s₁ with enabled := true }, ESP_OK, tr₃)

/-- Function `wifi_csi_disable` from `modwifi_csi.c`. -/
def wifi_csi_disable (d : Driver) (s : csi_state_t) :
    csi_state_t × EspErr × List DriverCall :=
  if !s.enabled then (s, ESP_OK, [])
  else
    if d.set_csi_off ≠ ESP_OK then (s, d.set_csi_off, [DriverCall.setCsi false])
    else ({ s with enabled := false }, ESP_OK, [DriverCall.setCsi false])

/-- Function `wifi_csi_config` from `modwifi_csi.c` (the `config` argument is
passed by value, so the C `NULL` check has no counterpart).  The
configuration record is updated by `memcpy` before anything else; the
return value of the inner `wifi_csi_disable` is discarded, exactly as
in the C. -/
def wifi_csi_config (d : Driver) (s : csi_state_t) (config : csi_config_t) :
    csi_state_t × EspErr × List DriverCall :=
  let s₀ : csi_state_t := { s with config := config }
  if config.buffer_size ≠ s₀.buffer.size then
    let was_enabled := s₀.enabled
    let q := if was_enabled then
        let r := wifi_csi_disable d s₀
        (r.1, r.2.2)
      else (s₀, [])
    let s₁ := q.1
    let s₂ : csi_state_t := { s₁ with buffer := csi_buffer_deinit s₁.buffer }
    let r := csi_buffer_init s₂.buffer config.buffer_size d.alloc_ok
    let s₃ : csi_state_t := { s₂ with buffer := r.1 }
    if !r.2 then (s₃, ESP_ERR_NO_MEM, q.2)
    else if was_enabled then
      let e := wifi_csi_enable d s₃
      (e.1, e.2.1, q.2 ++ e.2.2)
    else (s₃, ESP_OK, q.2)
  else if s₀.enabled then
    wifi_csi_enable d s₀
  else (s₀, ESP_OK, [])

/-- Function `wifi_csi_read_frame` from `modwifi_csi.c`. -/
def wifi_csi_read_frame (s : csi_state_t) : csi_state_t × Option csi_frame_t :=
  let r := csi_buffer_read s.buffer
  ({ s with buffer := r.1 }, r.2)

/-- Write a list of frames in order (repeated `csi_buffer_write`);
the `Bool` is the conjunction of every write's own result. -/
def writeSeq (buf : csi_buffer_t) : List csi_frame_t → csi_buffer_t × Bool
  | [] => (buf, true)
  | f :: fs =>
    let r := csi_buffer_write buf f
    let q := writeSeq r.1 fs
    (q.1, r.2 && q.2)

/-- Read `k` frames in order (repeated `csi_buffer_read`), collecting
the successfully returned frames. -/
def readN : Nat → csi_buffer_t → csi_buffer_t × List csi_frame_t
  | 0, buf => (buf, [])
  | k + 1, buf =>
    let r := csi_buffer_read buf
    match r.2 with
    | none => (r.1, [])
    | some f =>
      let q := readN k r.1
      (q.1, f :: q.2)

/-- The state of a buffer of `N` slots that was freshly initialized and
then successfully absorbed the frames `gs` (no wraparound yet):
slots `0 .. gs.length - 1` hold `gs`, `head = gs.length`, `tail = 0`. -/
def filled (N : Nat) (gs : List csi_frame_t) : csi_buffer_t :=
  { frames := some (gs ++ List.replicate (N - gs.length) default),
    head := gs.length, tail := 0, size := N, dropped := 0,
    initialized := true }

/-- Setting the element right after a prefix of known length. -/
theorem set_append_len {α : Type} (as : List α) (b c : α) (bs : List α) :
    (as ++ b :: bs).set as.length c = as ++ c :: bs := by
  induction as with
  | nil => rfl
  | cons a as ih => simp [ih]

/-- A successful `init` produces exactly the `filled N []` state. -/
theorem csi_buffer_init_filled (buf : csi_buffer_t) (N : Nat) :
    csi_buffer_init buf N true = (filled N [], true) := by
  simp [csi_buffer_init, filled]

/-- One successful write onto a partially `filled` buffer appends the
frame. -/
theorem write_filled (N : Nat) (gs : List csi_frame_t) (f : csi_frame_t)
    (hU : N ≤ U32) (h : gs.length + 2 ≤ N) :
    csi_buffer_write (filled N gs) f = (filled N (gs ++ [f]), true) := by
  have h1 : ((gs.length + 1) % U32) % N = gs.length + 1 := by
    rw [Nat.mod_eq_of_lt (by omega : gs.length + 1 < U32)]
    exact Nat.mod_eq_of_lt (by omega)
  have h2 : List.replicate (N - gs.length) (default : csi_frame_t)
      = default :: List.replicate (N - (gs.length + 1)) default := by
    have h3 : N - gs.length = (N - (gs.length + 1)) + 1 := by omega
    rw [h3, List.replicate_succ]
  simp only [csi_buffer_write, filled, Bool.not_true, Bool.false_eq_true,
    if_false, h1, h2]
  rw [if_neg (by omega)]
  simp [set_append_len]

/-- A write onto a full `filled` buffer only bumps `dropped`. -/
theorem write_filled_full (N : Nat) (gs : List csi_frame_t) (f : csi_frame_t)
    (hU : N ≤ U32) (hN : 1 ≤ N) (hlen : gs.length = N - 1) :
    csi_buffer_write (filled N gs) f = ({ filled N gs with dropped := 1 }, false) := by
  have h1 : ((gs.length + 1) % U32) % N = 0 := by
    have he : gs.length + 1 = N := by omega
    rw [he]
    rcases Nat.lt_or_ge N U32 with h | h
    · rw [Nat.mod_eq_of_lt h, Nat.mod_self]
    · have heq : N = U32 := le_antisymm hU h
      rw [heq, Nat.mod_self, Nat.zero_mod]
  have h2 : (0 + 1) % U32 = 1 := by norm_num [U32]
  simp [csi_buffer_write, filled, h1, h2]

/-- Writing a sequence that fits (total + sentinel ≤ N) succeeds and
appends all frames in order. -/
theorem writeSeq_filled (N : Nat) (hU : N ≤ U32) :
    ∀ (fs gs : List csi_frame_t), gs.length + fs.length + 1 ≤ N →
      writeSeq (filled N gs) fs = (filled N (gs ++ fs), true) := by
  intro fs
  induction fs with
  | nil => intro gs _; simp [writeSeq]
  | cons f fs ih =>
    intro gs hlen
    simp only [List.length_cons] at hlen
    have hw := write_filled N gs f hU (by omega)
    have hr := ih (gs ++ [f]) (by simp; omega)
    simp only [writeSeq, hw, hr, Bool.true_and]
    simp

/-- Reading the remaining `k` frames of a `filled` buffer whose `tail`
is at `t` returns `gs.drop t` in FIFO order and leaves `tail = head`. -/
theorem readN_filled (N : Nat) (gs : List csi_frame_t)
    (hU : N ≤ U32) (hg : gs.length + 1 ≤ N) :
    ∀ (k t : Nat), t + k = gs.length →
      readN k { filled N gs with tail := t }
        = ({ filled N gs with tail := gs.length }, gs.drop t) := by
  intro k
  induction k with
  | zero =>
    intro t ht
    simp only [Nat.add_zero] at ht
    subst ht
    simp [readN, List.drop_length]
  | succ k ih =>
    intro t ht
    have htl : t < gs.length := by omega
    have hread : csi_buffer_read { filled N gs with tail := t }
        = ({ filled N gs with tail := t + 1 }, some gs[t]) := by
      have hne : (gs.length == t) = false := by
        simp [Nat.ne_of_gt htl]
      have hmod : ((t + 1) % U32) % N = t + 1 := by
        rw [Nat.mod_eq_of_lt (by omega : t + 1 < U32)]
        exact Nat.mod_eq_of_lt (by omega)
      simp only [csi_buffer_read, csi_buffer_is_empty, filled, hne, hmod]
      simp [List.getElem?_append, htl, List.getElem?_eq_getElem]
    have hrest := ih (t + 1) (by omega)
    simp only [readN, hread, hrest]
    rw [List.drop_eq_getElem_cons htl]

/-- Lemma: `writeSeq` splits over list append. -/
theorem writeSeq_append (as bs : List csi_frame_t) :
    ∀ buf : csi_buffer_t,
      writeSeq buf (as ++ bs)
        = ((writeSeq (writeSeq buf as).1 bs).1,
           (writeSeq buf as).2 && (writeSeq (writeSeq buf as).1 bs).2) := by
  induction as with
  | nil => intro buf; simp [writeSeq]
  | cons a as ih => intro buf; simp [writeSeq, ih, Bool.and_assoc]

/-- The uninitialized buffer of the C global initializer `g_csi_state`. -/
def bufNull : csi_buffer_t :=
  { frames := none, head := 0, tail := 0, size := 0, dropped := 0,
    initialized := false }

/-- C1 counterexample: `csi_buffer_init` with capacity argument 4
allocates 4 slots, not 4+1 — `malloc(sizeof(csi_frame_t) * size)` uses
the argument verbatim. -/
theorem c1_init_counterexample :
    ¬ ((csi_buffer_init bufNull 4 true).1.frames.getD []).length = 4 + 1 := by
  decide

/-- C1 (amended): for every capacity argument `c ≥ 1`, `csi_buffer_init`
allocates exactly `c` frame slots (so `c − 1` are usable, one kept as
the sentinel gap), resets `head`, `tail` and `dropped` to zero, and
marks the buffer initialized. -/
theorem c1_init_postcondition (buf : csi_buffer_t) (c : Nat) (_hc : 1 ≤ c) :
    csi_buffer_init buf c true
      = ({ frames := some (List.replicate c default), head := 0, tail := 0,
           size := c, dropped := 0, initialized := true }, true) := by
  simp [csi_buffer_init]

/-- Witness for `c1_init_postcondition` at `c = 4`. -/
theorem c1_init_postcondition_witness :
    1 ≤ 4 ∧
    csi_buffer_init bufNull 4 true
      = ({ frames := some (List.replicate 4 default), head := 0, tail := 0,
           size := 4, dropped := 0, initialized := true }, true) :=
  ⟨by decide, c1_init_postcondition bufNull 4 (by decide)⟩

/-- An initialized buffer of 3 slots holding live storage, used as the
re-initialization scenario of C5. -/
def bufReinit : csi_buffer_t :=
  { frames := some (List.replicate 3 default), head := 1, tail := 0,
    size := 3, dropped := 0, initialized := true }

/-- C5 failing input evaluated: re-initializing an already-initialized
buffer when `malloc` fails frees the prior storage yet leaves
`initialized = true` with `frames = NULL` — an inconsistent state in
which the prior contents are lost and a later `csi_buffer_write` would
dereference `NULL`. -/
theorem c5_reinit_alloc_failure_inconsistent :
    csi_buffer_init bufReinit 5 false = ({ bufReinit with frames := none }, false) ∧
    (csi_buffer_init bufReinit 5 false).1.initialized = true ∧
    (csi_buffer_init bufReinit 5 false).1.frames = none :=
  ⟨rfl, rfl, rfl⟩

/-- A full 2-slot buffer whose `dropped` counter is at the `uint32_t`
maximum. -/
def bufAtMaxDropped : csi_buffer_t :=
  { frames := some (List.replicate 2 default), head := 1, tail := 0,
    size := 2, dropped := U32 - 1, initialized := true }

/-- C9 counterexample: with `dropped = 2^32 − 1` and a full buffer, one
more dropped frame wraps the counter to 0 instead of saturating at the
maximum. -/
theorem c9_dropped_wraps_counterexample :
    (csi_buffer_write bufAtMaxDropped default).1.dropped = 0 ∧
    ¬ (csi_buffer_write bufAtMaxDropped default).1.dropped = U32 - 1 := by
  exact ⟨by decide, by decide⟩

/-- C9 (amended): the `dropped` counter is a wrapping `uint32_t`: each
dropped frame sets it to `(dropped + 1) mod 2^32`, so at the maximum
representable value a further drop wraps it to zero. -/
theorem c9_dropped_increments_mod_u32 (buf : csi_buffer_t) (f : csi_frame_t)
    (h1 : buf.initialized = true)
    (h2 : ((buf.head + 1) % U32) % buf.size = buf.tail) :
    (csi_buffer_write buf f).1.dropped = (buf.dropped + 1) % U32 := by
  simp [csi_buffer_write, h1, h2]

/-- Witness for `c9_dropped_increments_mod_u32` at the wrap point. -/
theorem c9_dropped_increments_mod_u32_witness :
    bufAtMaxDropped.initialized = true ∧
    ((bufAtMaxDropped.head + 1) % U32) % bufAtMaxDropped.size = bufAtMaxDropped.tail ∧
    (csi_buffer_write bufAtMaxDropped default).1.dropped
      = (bufAtMaxDropped.dropped + 1) % U32 :=
  ⟨rfl, by decide,
   c9_dropped_increments_mod_u32 bufAtMaxDropped default rfl (by decide)⟩

/-- C2: a write to a full initialized buffer only bumps `dropped`
(modulo 2^32) and rejects the frame — `head`, `tail` and every stored
slot are untouched (drop-newest, never drop-oldest); and writing `N`
frames into a freshly initialized buffer of `N` slots yields exactly
one dropped frame, `available() = N − 1`, and the first `N − 1` frames
retained in slots `0 .. N − 2` with `head = N − 1`, `tail = 0`. -/
theorem c2_full_write_drops_newest :
    (∀ (buf : csi_buffer_t) (f : csi_frame_t),
        buf.initialized = true →
        ((buf.head + 1) % U32) % buf.size = buf.tail →
        csi_buffer_write buf f
          = ({ buf with dropped := (buf.dropped + 1) % U32 }, false)) ∧
    (∀ (N : Nat) (fs : List csi_frame_t),
        2 ≤ N → N ≤ U32 → fs.length = N →
        (writeSeq (filled N []) fs).1.dropped = 1 ∧
        csi_available (writeSeq (filled N []) fs).1 = N - 1 ∧
        (writeSeq (filled N []) fs).1.frames
          = some (fs.take (N - 1) ++ [default]) ∧
        (writeSeq (filled N []) fs).1.head = N - 1 ∧
        (writeSeq (filled N []) fs).1.tail = 0) := by
  constructor
  · intro buf f h1 h2
    simp [csi_buffer_write, h1, h2]
  · intro N fs hN hU hlen
    have htk : (fs.take (N - 1)).length = N - 1 := by
      simp [List.length_take, hlen]
    have hidx : N - 1 < fs.length := by omega
    have hdrop : fs.drop (N - 1) = [fs[N - 1]] := by
      rw [List.drop_eq_getElem_cons hidx]
      have : fs.drop (N - 1 + 1) = [] := by
        have h' : N - 1 + 1 = N := by omega
        rw [h', ← hlen, List.drop_length]
      rw [this]
    have hsplit : fs.take (N - 1) ++ fs.drop (N - 1) = fs :=
      List.take_append_drop _ _
    have hfill : writeSeq (filled N []) (fs.take (N - 1))
        = (filled N (fs.take (N - 1)), true) := by
      have h := writeSeq_filled N hU (fs.take (N - 1)) [] (by simp [htk]; omega)
      simpa using h
    have hfull : csi_buffer_write (filled N (fs.take (N - 1))) (fs[N - 1])
        = ({ filled N (fs.take (N - 1)) with dropped := 1 }, false) :=
      write_filled_full N _ _ hU (by omega) htk
    have hfinal : (writeSeq (filled N []) fs).1
        = { filled N (fs.take (N - 1)) with dropped := 1 } := by
      conv_lhs => rw [← hsplit]
      rw [writeSeq_append, hfill]
      simp [hdrop, writeSeq, hfull]
    have hgap : N - (N - 1) = 1 := by omega
    refine ⟨by rw [hfinal], ?_, ?_, ?_, ?_⟩
    · rw [hfinal]
      simp [csi_available, filled, htk]
    · rw [hfinal]
      simp [filled, htk, hgap]
    · rw [hfinal]
      simp [filled, htk]
    · rw [hfinal]
      simp [filled]

/-- Witness for `c2_full_write_drops_newest`: both conjuncts applied at
`N = 2` with two default frames (part one at the resulting full
buffer). -/
theorem c2_full_write_drops_newest_witness :
    ((2 : Nat) ≤ 2 ∧ (2 : Nat) ≤ U32 ∧
      ([(default : csi_frame_t), default].length = 2)) ∧
    (writeSeq (filled 2 []) [default, default]).1.dropped = 1 ∧
    (filled 2 [default]).initialized = true ∧
    (((filled 2 [default]).head + 1) % U32) % (filled 2 [default]).size
      = (filled 2 [default]).tail ∧
    csi_buffer_write (filled 2 [default]) default
      = ({ filled 2 [default] with
            dropped := ((filled 2 [default]).dropped + 1) % U32 }, false) :=
  ⟨⟨by decide, by decide, by decide⟩,
   (c2_full_write_drops_newest.2 2 [default, default]
      (by decide) (by decide) (by decide)).1,
   rfl, by decide,
   c2_full_write_drops_newest.1 (filled 2 [default]) default rfl (by decide)⟩

/-- C3: writing `K ≤ N − 1` frames into a freshly initialized buffer of
`N` slots succeeds for every write, and reading `K` frames returns
them in FIFO order, structurally (hence byte-for-byte) equal to what
was written, leaving the buffer empty (`head = tail`) so that a
further read reports no data. -/
theorem c3_fifo_roundtrip (buf₀ : csi_buffer_t) (N : Nat)
    (fs : List csi_frame_t) (hU : N ≤ U32) (hK : fs.length + 1 ≤ N) :
    (writeSeq (csi_buffer_init buf₀ N true).1 fs).2 = true ∧
    (readN fs.length (writeSeq (csi_buffer_init buf₀ N true).1 fs).1).2 = fs ∧
    (readN fs.length (writeSeq (csi_buffer_init buf₀ N true).1 fs).1).1.head
      = (readN fs.length (writeSeq (csi_buffer_init buf₀ N true).1 fs).1).1.tail ∧
    (csi_buffer_read
        (readN fs.length (writeSeq (csi_buffer_init buf₀ N true).1 fs).1).1).2
      = none := by
  have hinit := csi_buffer_init_filled buf₀ N
  have hw : writeSeq (filled N []) fs = (filled N fs, true) := by
    have h := writeSeq_filled N hU fs [] (by simpa using hK)
    simpa using h
  have hr := readN_filled N fs hU hK fs.length 0 (by omega)
  have h0 : ({ filled N fs with tail := 0 } : csi_buffer_t) = filled N fs := rfl
  rw [h0] at hr
  have hinit1 : (csi_buffer_init buf₀ N true).1 = filled N [] := by rw [hinit]
  have hw1 : (writeSeq (filled N []) fs).1 = filled N fs := by rw [hw]
  have hw2 : (writeSeq (filled N []) fs).2 = true := by rw [hw]
  have hr1 : (readN fs.length (filled N fs)).1
      = { filled N fs with tail := fs.length } := by rw [hr]
  have hr2 : (readN fs.length (filled N fs)).2 = fs := by
    rw [hr]; simp
  refine ⟨?_, ?_, ?_, ?_⟩
  · rw [hinit1, hw2]
  · rw [hinit1, hw1, hr2]
  · rw [hinit1, hw1, hr1]; exact rfl
  · rw [hinit1, hw1, hr1]
    simp [csi_buffer_read, csi_buffer_is_empty, filled]

/-- Witness for `c3_fifo_roundtrip`: `N = 3`, two frames. -/
theorem c3_fifo_roundtrip_witness :
    ((3 : Nat) ≤ U32 ∧
      [(default : csi_frame_t), { (default : csi_frame_t) with len := 7 }].length + 1 ≤ 3) ∧
    (readN 2 (writeSeq (csi_buffer_init bufNull 3 true).1
        [(default : csi_frame_t), { (default : csi_frame_t) with len := 7 }]).1).2
      = [(default : csi_frame_t), { (default : csi_frame_t) with len := 7 }] :=
  ⟨⟨by decide, by decide⟩,
   (c3_fifo_roundtrip bufNull 3
      [(default : csi_frame_t), { (default : csi_frame_t) with len := 7 }]
      (by decide) (by decide)).2.1⟩



/-- Function `wifi_csi_enable` is an immediate success no-op when already
enabled. -/
theorem enable_already (d : Driver) (s : csi_state_t) (h : s.enabled = true) :
    wifi_csi_enable d s = (s, ESP_OK, []) := by
  simp [wifi_csi_enable, h]

/-- Function `wifi_csi_enable` when disabled with an initialized buffer and all
driver calls succeeding. -/
theorem enable_all_ok (d : Driver) (s : csi_state_t)
    (hen : s.enabled = false) (hinit : s.buffer.initialized = true)
    (hp : d.set_promiscuous = ESP_OK) (hc : d.set_csi_config = ESP_OK)
    (hr : d.set_csi_rx_cb = ESP_OK) (ho : d.set_csi_on = ESP_OK) :
    wifi_csi_enable d s
      = ({ s with enabled := true }, ESP_OK,
         [DriverCall.setProtocol, DriverCall.setBandwidth,
          DriverCall.setPromiscuous false, DriverCall.setCsiConfig s.config,
          DriverCall.setCsiRxCb, DriverCall.setCsi true]) := by
  simp [wifi_csi_enable, hen, hinit, hp, hc, hr, ho]

/-- Function `wifi_csi_enable` when `esp_wifi_set_csi_config` fails: the code is
returned verbatim and the state is untouched. -/
theorem enable_fail_config (d : Driver) (s : csi_state_t)
    (hen : s.enabled = false) (hinit : s.buffer.initialized = true)
    (hp : d.set_promiscuous = ESP_OK) (hc : d.set_csi_config ≠ ESP_OK) :
    wifi_csi_enable d s
      = (s, d.set_csi_config,
         [DriverCall.setProtocol, DriverCall.setBandwidth,
          DriverCall.setPromiscuous false, DriverCall.setCsiConfig s.config]) := by
  simp [wifi_csi_enable, hen, hinit, hp, hc]

/-- Function `wifi_csi_enable` when `esp_wifi_set_csi_rx_cb` fails. -/
theorem enable_fail_cb (d : Driver) (s : csi_state_t)
    (hen : s.enabled = false) (hinit : s.buffer.initialized = true)
    (hp : d.set_promiscuous = ESP_OK) (hc : d.set_csi_config = ESP_OK)
    (hr : d.set_csi_rx_cb ≠ ESP_OK) :
    wifi_csi_enable d s
      = (s, d.set_csi_rx_cb,
         [DriverCall.setProtocol, DriverCall.setBandwidth,
          DriverCall.setPromiscuous false, DriverCall.setCsiConfig s.config,
          DriverCall.setCsiRxCb]) := by
  simp [wifi_csi_enable, hen, hinit, hp, hc, hr]

/-- Function `wifi_csi_enable` when `esp_wifi_set_csi(true)` fails. -/
theorem enable_fail_on (d : Driver) (s : csi_state_t)
    (hen : s.enabled = false) (hinit : s.buffer.initialized = true)
    (hp : d.set_promiscuous = ESP_OK) (hc : d.set_csi_config = ESP_OK)
    (hr : d.set_csi_rx_cb = ESP_OK) (ho : d.set_csi_on ≠ ESP_OK) :
    wifi_csi_enable d s
      = (s, d.set_csi_on,
         [DriverCall.setProtocol, DriverCall.setBandwidth,
          DriverCall.setPromiscuous false, DriverCall.setCsiConfig s.config,
          DriverCall.setCsiRxCb, DriverCall.setCsi true]) := by
  simp [wifi_csi_enable, hen, hinit, hp, hc, hr, ho]

/-- Function `wifi_csi_enable` when `esp_wifi_set_promiscuous` fails. -/
theorem enable_fail_promiscuous (d : Driver) (s : csi_state_t)
    (hen : s.enabled = false) (hinit : s.buffer.initialized = true)
    (hp : d.set_promiscuous ≠ ESP_OK) :
    wifi_csi_enable d s
      = (s, d.set_promiscuous,
         [DriverCall.setProtocol, DriverCall.setBandwidth,
          DriverCall.setPromiscuous false]) := by
  simp [wifi_csi_enable, hen, hinit, hp]

/-- Function `wifi_csi_enable` never changes the stored configuration. -/
theorem enable_preserves_config (d : Driver) (s : csi_state_t) :
    (wifi_csi_enable d s).1.config = s.config := by
  simp only [wifi_csi_enable]
  split_ifs <;> simp

/-- Function `wifi_csi_disable` never changes the stored configuration. -/
theorem disable_preserves_config (d : Driver) (s : csi_state_t) :
    (wifi_csi_disable d s).1.config = s.config := by
  simp only [wifi_csi_disable]
  split_ifs <;> simp

/-- Default-style configuration fixture with capacity 4. -/
def cfgB4 : csi_config_t :=
  { lltf_en := true, htltf_en := true, stbc_htltf2_en := true,
    ltf_merge_en := true, channel_filter_en := true, manu_scale := false,
    shift := 0, buffer_size := 4 }

/-- Fixture `cfgB4` with one capture option changed and the capacity kept. -/
def cfgB4' : csi_config_t := { cfgB4 with lltf_en := false }

/-- Disabled controller with an initialized empty 4-slot buffer. -/
def stDisabled4 : csi_state_t :=
  { buffer := filled 4 [], config := cfgB4, enabled := false }

/-- Enabled controller with one queued unread frame in a 4-slot buffer. -/
def stEnabled4 : csi_state_t :=
  { buffer := filled 4 [default], config := cfgB4, enabled := true }

/-- Driver oracle where every call succeeds. -/
def drvOk : Driver :=
  { set_protocol := ESP_OK, set_bandwidth := ESP_OK,
    set_promiscuous := ESP_OK, set_csi_config := ESP_OK,
    set_csi_rx_cb := ESP_OK, set_csi_on := ESP_OK, set_csi_off := ESP_OK,
    alloc_ok := true }

/-- Driver oracle where callback registration fails with code 7. -/
def drvCbFails : Driver := { drvOk with set_csi_rx_cb := 7 }

/-- Driver oracle where `esp_wifi_set_csi(false)` fails with code 9. -/
def drvOffFails : Driver := { drvOk with set_csi_off := 9 }

/-- C4 failing input evaluated: with the controller Enabled and a new
configuration whose `buffer_size` equals the live buffer's size, the
code stores the configuration and returns `ESP_OK` after performing
zero driver calls — `wifi_csi_enable` returns immediately because
`enabled` is already `true`, so the driver never receives the new
configuration (the queued unread frame is preserved). -/
theorem c4_config_same_size_no_driver_reapply :
    wifi_csi_config drvOk stEnabled4 cfgB4'
      = ({ stEnabled4 with config := cfgB4' }, ESP_OK, []) ∧
    (wifi_csi_config drvOk stEnabled4 cfgB4').1.buffer = stEnabled4.buffer :=
  ⟨by decide, by decide⟩

/-- C6: `wifi_csi_enable` is a success no-op when already Enabled;
otherwise a failure of driver configuration, callback registration or
capture start is returned verbatim, aborts the transition at the point
of failure with the whole state (in particular `enabled = false`)
untouched, and `enabled` becomes `true` only when every one of those
steps succeeded. -/
theorem c6_enable_failure_atomicity (d : Driver) (s : csi_state_t) :
    (s.enabled = true → wifi_csi_enable d s = (s, ESP_OK, [])) ∧
    (s.enabled = false → s.buffer.initialized = true →
      ((d.set_promiscuous = ESP_OK → d.set_csi_config ≠ ESP_OK →
          (wifi_csi_enable d s).2.1 = d.set_csi_config ∧
          (wifi_csi_enable d s).1 = s) ∧
       (d.set_promiscuous = ESP_OK → d.set_csi_config = ESP_OK →
          d.set_csi_rx_cb ≠ ESP_OK →
          (wifi_csi_enable d s).2.1 = d.set_csi_rx_cb ∧
          (wifi_csi_enable d s).1 = s) ∧
       (d.set_promiscuous = ESP_OK → d.set_csi_config = ESP_OK →
          d.set_csi_rx_cb = ESP_OK → d.set_csi_on ≠ ESP_OK →
          (wifi_csi_enable d s).2.1 = d.set_csi_on ∧
          (wifi_csi_enable d s).1 = s) ∧
       ((wifi_csi_enable d s).1.enabled = true →
          d.set_csi_config = ESP_OK ∧ d.set_csi_rx_cb = ESP_OK ∧
          d.set_csi_on = ESP_OK ∧ (wifi_csi_enable d s).2.1 = ESP_OK))) := by
  refine ⟨fun h => enable_already d s h, fun hen hinit => ⟨?_, ?_, ?_, ?_⟩⟩
  · intro hp hc
    rw [enable_fail_config d s hen hinit hp hc]
    exact ⟨rfl, rfl⟩
  · intro hp hc hr
    rw [enable_fail_cb d s hen hinit hp hc hr]
    exact ⟨rfl, rfl⟩
  · intro hp hc hr ho
    rw [enable_fail_on d s hen hinit hp hc hr ho]
    exact ⟨rfl, rfl⟩
  · intro hEn
    by_cases hp : d.set_promiscuous = ESP_OK
    · by_cases hc : d.set_csi_config = ESP_OK
      · by_cases hr : d.set_csi_rx_cb = ESP_OK
        · by_cases ho : d.set_csi_on = ESP_OK
          · rw [enable_all_ok d s hen hinit hp hc hr ho]
            exact ⟨hc, hr, ho, rfl⟩
          · rw [enable_fail_on d s hen hinit hp hc hr ho] at hEn
            simp [hen] at hEn
        · rw [enable_fail_cb d s hen hinit hp hc hr] at hEn
          simp [hen] at hEn
      · rw [enable_fail_config d s hen hinit hp hc] at hEn
        simp [hen] at hEn
    · rw [enable_fail_promiscuous d s hen hinit hp] at hEn
      simp [hen] at hEn

/-- Witness for `c6_enable_failure_atomicity`: callback registration
failing with code 7 on a disabled controller. -/
theorem c6_enable_failure_atomicity_witness :
    stDisabled4.enabled = false ∧ stDisabled4.buffer.initialized = true ∧
    drvCbFails.set_promiscuous = ESP_OK ∧
    drvCbFails.set_csi_config = ESP_OK ∧
    drvCbFails.set_csi_rx_cb ≠ ESP_OK ∧
    (wifi_csi_enable drvCbFails stDisabled4).2.1 = drvCbFails.set_csi_rx_cb ∧
    (wifi_csi_enable drvCbFails stDisabled4).1 = stDisabled4 :=
  ⟨rfl, rfl, rfl, rfl, by decide,
   (((c6_enable_failure_atomicity drvCbFails stDisabled4).2 rfl rfl).2.1
      rfl rfl (by decide)).1,
   (((c6_enable_failure_atomicity drvCbFails stDisabled4).2 rfl rfl).2.1
      rfl rfl (by decide)).2⟩

/-- C7: `wifi_csi_disable` is a success no-op when already Disabled;
otherwise it performs only the stop-capture driver call and clears
`enabled`, leaving storage, `head`, `tail`, `dropped` and every queued
frame unchanged; hence `disable()` then `enable()` (all driver calls
succeeding) restores `enabled = true` with the buffer — including its
unread frames — exactly as before. -/
theorem c7_disable_preserves_buffer (d e : Driver) (s : csi_state_t) :
    (s.enabled = false → wifi_csi_disable d s = (s, ESP_OK, [])) ∧
    (s.enabled = true → d.set_csi_off = ESP_OK →
       wifi_csi_disable d s
         = ({ s with enabled := false }, ESP_OK, [DriverCall.setCsi false])) ∧
    (s.enabled = true → d.set_csi_off = ESP_OK →
       s.buffer.initialized = true →
       e.set_promiscuous = ESP_OK → e.set_csi_config = ESP_OK →
       e.set_csi_rx_cb = ESP_OK → e.set_csi_on = ESP_OK →
       (wifi_csi_enable e (wifi_csi_disable d s).1).1.buffer = s.buffer ∧
       (wifi_csi_enable e (wifi_csi_disable d s).1).1.enabled = true) := by
  refine ⟨fun h => by simp [wifi_csi_disable, h],
          fun hen hoff => by simp [wifi_csi_disable, hen, hoff], ?_⟩
  intro hen hoff hinit hp hc hr ho
  have hdis : wifi_csi_disable d s
      = ({ s with enabled := false }, ESP_OK, [DriverCall.setCsi false]) := by
    simp [wifi_csi_disable, hen, hoff]
  have hcomp : wifi_csi_enable e (wifi_csi_disable d s).1
      = ({ { s with enabled := false } with enabled := true }, ESP_OK,
         [DriverCall.setProtocol, DriverCall.setBandwidth,
          DriverCall.setPromiscuous false,
          DriverCall.setCsiConfig ({ s with enabled := false } : csi_state_t).config,
          DriverCall.setCsiRxCb, DriverCall.setCsi true]) := by
    rw [hdis]
    exact enable_all_ok e { s with enabled := false } rfl hinit hp hc hr ho
  exact ⟨by simp [hcomp], by simp [hcomp]⟩

/-- Witness for `c7_disable_preserves_buffer`: disable then enable on
the enabled fixture with one queued frame. -/
theorem c7_disable_preserves_buffer_witness :
    stEnabled4.enabled = true ∧ drvOk.set_csi_off = ESP_OK ∧
    stEnabled4.buffer.initialized = true ∧
    (wifi_csi_enable drvOk (wifi_csi_disable drvOk stEnabled4).1).1.buffer
      = stEnabled4.buffer :=
  ⟨rfl, rfl, rfl,
   ((c7_disable_preserves_buffer drvOk drvOk stEnabled4).2.2
      rfl rfl rfl rfl rfl rfl rfl).1⟩

/-- C8: `wifi_csi_config` copies the caller's configuration into the
stored record before any driver interaction, so whatever the outcome
(success, allocation failure, or any driver failure) the stored
configuration equals the caller-supplied one. -/
theorem c8_config_stored_before_driver_calls (d : Driver) (s : csi_state_t)
    (config : csi_config_t) :
    ((wifi_csi_config d s config).1).config = config := by
  simp only [wifi_csi_config]
  split_ifs <;>
    simp [enable_preserves_config, disable_preserves_config]

/-- C10: when reconfiguring to a different capacity while Enabled and
the stop-capture driver call fails, the failure is discarded: the old
buffer is still freed and replaced by a fresh empty one, `enabled`
stays `true`, the re-enable call is an immediate no-op (no
configuration re-apply, no callback re-registration — the only driver
call in the whole operation is `esp_wifi_set_csi(false)`), and the
operation reports `ESP_OK`. -/
theorem c10_resize_ignores_disable_failure (d : Driver) (s : csi_state_t)
    (config : csi_config_t) (hen : s.enabled = true)
    (hsz : config.buffer_size ≠ s.buffer.size)
    (hoff : d.set_csi_off ≠ ESP_OK) (halloc : d.alloc_ok = true) :
    wifi_csi_config d s config
      = ({ buffer := filled config.buffer_size [], config := config,
           enabled := true }, ESP_OK, [DriverCall.setCsi false]) := by
  have hdis : wifi_csi_disable d
        ({ buffer := s.buffer, config := config, enabled := true } : csi_state_t)
      = (({ buffer := s.buffer, config := config, enabled := true } : csi_state_t),
         d.set_csi_off, [DriverCall.setCsi false]) := by
    simp [wifi_csi_disable, hoff]
  simp [wifi_csi_config, hsz, hen, hdis, halloc, csi_buffer_init,
    wifi_csi_enable, filled]

/-- Witness for `c10_resize_ignores_disable_failure`: resize 4 → 6 with
a failing stop-capture call. -/
theorem c10_resize_ignores_disable_failure_witness :
    stEnabled4.enabled = true ∧
    ({ cfgB4 with buffer_size := 6 } : csi_config_t).buffer_size
      ≠ stEnabled4.buffer.size ∧
    drvOffFails.set_csi_off ≠ ESP_OK ∧ drvOffFails.alloc_ok = true ∧
    wifi_csi_config drvOffFails stEnabled4 { cfgB4 with buffer_size := 6 }
      = ({ buffer := filled 6 [], config := { cfgB4 with buffer_size := 6 },
           enabled := true }, ESP_OK, [DriverCall.setCsi false]) :=
  ⟨rfl, by decide, by decide, rfl,
   c10_resize_ignores_disable_failure drvOffFails stEnabled4
     { cfgB4 with buffer_size := 6 } rfl (by decide) (by decide) rfl⟩
